import Mathlib

/-!
Verification development for the pluginlib `ClassLoader` (pluginlib/class_loader.h).

The repository ships the public header `include/pluginlib/class_loader.h`; the
template implementation (`class_loader_imp.h`) is not part of the sources at
hand, so the behavioural definitions below are modelled from the specification
(spec.md) faithfully to its words, keeping the names declared by the header
(`loadLibraryForClass`, `unloadLibraryForClass`, `createInstance`,
`createUnmanagedInstance`, `determineAvailableClasses`,
`getAllLibraryPathsToTry`, `getErrorStringForUnknownClass`, ...).
-/

namespace Pluginlib

/-- Load state of a dynamically loaded library: the spec's
`state : \x7bUnloaded, Loaded\x7d`. -/
inductive LibState where
  | Unloaded : LibState
  | Loaded : LibState
deriving DecidableEq, Repr

/-- Modelled from the spec: `LibraryRecord` — one per distinct resolved
absolute path; carries the path, the load state and the non-negative
reference count ("number of outstanding load-or-instance claims"). -/
structure LibraryRecord where
  path : String
  state : LibState
  refcount : Nat
deriving DecidableEq, Repr

/-- Modelled from the spec: the error taxonomy of §7, together with the
exception types named by the header (`LibraryLoadException`,
`LibraryUnloadException`, `CreateClassException`). -/
inductive PluginlibError where
  | unknownClassError (message : String) : PluginlibError
  | libraryNotFoundError (library : String) (package : String)
      (candidatesTried : List String) : PluginlibError
  | libraryLoadError (path : String) : PluginlibError
  | libraryUnloadError (path : String) : PluginlibError
  | instantiationError (implementationType : String) : PluginlibError
  | notLoadedError (path : String) : PluginlibError
  | manifestSourceError : PluginlibError
  | libraryLoadException (message : String) : PluginlibError
deriving DecidableEq, Repr

/-- Modelled from the spec: the Library Lifecycle Manager state — the mapping
from absolute path to `LibraryRecord`, plus the history of physical open and
close calls issued to the dynamic symbol loader collaborator (each event names
the path it opened or closed). -/
structure LcmState where
  records : String → Option LibraryRecord
  openEvents : List String
  closeEvents : List String

/-- The empty lifecycle state: no records, no physical events. -/
def LcmState.empty : LcmState :=
  { records := fun _ => none, openEvents := [], closeEvents := [] }

/-- Point update of the record map at a path. -/
def setRecord (m : String → Option LibraryRecord) (p : String)
    (r : LibraryRecord) : String → Option LibraryRecord :=
  fun q => if q = p then some r else m q

/-- The refcount the lifecycle manager tracks for a path (0 when no record
exists yet). -/
def refcountOf (s : LcmState) (p : String) : Nat :=
  match s.records p with
  | some r => r.refcount
  | none => 0

/-- Modelled from the spec: `acquire(path)` of §4.3, the body behind the
header's `loadLibraryForClass`. If no record exists, create one with
refcount 0, state Unloaded. If the state is Unloaded, perform the actual
dynamic open via the symbol-loader collaborator (`openOk`); on success set the
state to Loaded; on failure fail with `LibraryLoadError` and leave the record
Unloaded with refcount unchanged. On success, or if already Loaded, increment
the refcount and return the record. Returns the result together with the
post-call state. -/
def acquire (openOk : String → Bool) (s : LcmState) (p : String) :
    Except PluginlibError LibraryRecord × LcmState :=
  let r := match s.records p with
    | some r => r
    | none => { path := p, state := LibState.Unloaded, refcount := 0 }
  match r.state with
  | LibState.Unloaded =>
      if openOk p then
        let r' : LibraryRecord :=
          { path := p, state := LibState.Loaded, refcount := r.refcount + 1 }
        (Except.ok r',
          { s with records := setRecord s.records p r',
                   openEvents := s.openEvents ++ [p] })
      else
        (Except.error (PluginlibError.libraryLoadError p),
          { s with records :=
              setRecord s.records p ⟨p, LibState.Unloaded, r.refcount⟩,
                   openEvents := s.openEvents ++ [p] })
  | LibState.Loaded =>
      let r' : LibraryRecord :=
        { path := p, state := LibState.Loaded, refcount := r.refcount + 1 }
      (Except.ok r', { s with records := setRecord s.records p r' })

/-- Modelled from the spec: `release(path)` of §4.3, the body behind the
header's `unloadLibraryForClass` / `unloadClassLibraryInternal`. Fails with
`NotLoadedError` if no record exists or the refcount is already 0. Otherwise
decrement the refcount; if it reaches 0, physically close the library via the
symbol-loader collaborator (`closeOk`) and set state Unloaded; a close failure
is surfaced as `LibraryUnloadError` while the record is still left Unloaded at
refcount 0. Returns the remaining refcount with the post-call state. -/
def release (closeOk : String → Bool) (s : LcmState) (p : String) :
    Except PluginlibError Nat × LcmState :=
  match s.records p with
  | none => (Except.error (PluginlibError.notLoadedError p), s)
  | some r =>
      if r.refcount = 0 then
        (Except.error (PluginlibError.notLoadedError p), s)
      else
        let n := r.refcount - 1
        if n = 0 then
          let s' : LcmState :=
            { s with records :=
                setRecord s.records p ⟨p, LibState.Unloaded, 0⟩,
                     closeEvents := s.closeEvents ++ [p] }
          if closeOk p then (Except.ok 0, s')
          else (Except.error (PluginlibError.libraryUnloadError p), s')
        else
          (Except.ok n,
            { s with records := setRecord s.records p ⟨p, r.state, n⟩ })

/-- `isLoaded(path)` of §4.3: whether the record for the path is Loaded. -/
def isLibraryLoaded (s : LcmState) (p : String) : Bool :=
  match s.records p with
  | some r => decide (r.state = LibState.Loaded)
  | none => false

/-- Modelled from the spec: `ClassDesc` / `PluginDescriptor` — the metadata of
one declared plugin implementation (§3); the header stores these in
`classes_available_ : map<string, ClassDesc>` keyed by the qualified lookup
name. -/
structure ClassDesc where
  qualified_name : String
  implementation_type : String
  base_capability_type : String
  description : String
  declaring_package : String
  library_name : String
  manifest_path : String
deriving DecidableEq, Repr

/-- Insertion with last-write-wins on `qualified_name` (the §3 invariant on
duplicate manifest entries). -/
def insertDesc (acc : List ClassDesc) (d : ClassDesc) : List ClassDesc :=
  acc.filter (fun e => e.qualified_name != d.qualified_name) ++ [d]

/-- Modelled from the spec: `determineAvailableClasses` — queries the manifest
source for all records whose declared base capability matches the base class
and builds the descriptor registry, later entries overwriting earlier ones. -/
def determineAvailableClasses (manifest : List ClassDesc) (base_class : String) :
    List ClassDesc :=
  (manifest.filter (fun d => d.base_capability_type == base_class)).foldl insertDesc []

/-- Registry lookup by qualified name. -/
def lookupDesc (reg : List ClassDesc) (n : String) : Option ClassDesc :=
  reg.find? (fun d => d.qualified_name == n)

/-- `getDeclaredClasses`: the qualified names currently known. -/
def getDeclaredClasses (reg : List ClassDesc) : List String :=
  reg.map (fun d => d.qualified_name)

/-- `isClassAvailable(lookup_name)`: whether the class is in the registry. -/
def isClassAvailable (reg : List ClassDesc) (n : String) : Bool :=
  (lookupDesc reg n).isSome

/-- Space-separated concatenation of the declared names, as the unknown-class
diagnostic embeds them. -/
def joinNames : List String → String
  | [] => ""
  | n :: rest => n ++ " " ++ joinNames rest

/-- Modelled from the spec: `getErrorStringForUnknownClass` — the diagnostic
for a qualified name that is not in the registry; it must include the queried
name and the list of currently known names. -/
def getErrorStringForUnknownClass (reg : List ClassDesc) (n : String) : String :=
  "According to the loaded plugin descriptions the class " ++ n ++
    " does not exist. Declared types are " ++ joinNames (getDeclaredClasses reg)

/-- Modelled from the spec: `describe` / `getClassDescription` — returns the
descriptor of a declared class, or fails with `UnknownClassError` carrying the
diagnostic above. -/
def getClassDescription (reg : List ClassDesc) (n : String) :
    Except PluginlibError ClassDesc :=
  match lookupDesc reg n with
  | some d => Except.ok d
  | none =>
      Except.error (PluginlibError.unknownClassError (getErrorStringForUnknownClass reg n))

/-- Path separator of the modelled platform (`getPathSeparator`). -/
def getPathSeparator : String := "/"

/-- `joinPaths`: join two filesystem paths with the separator. -/
def joinPaths (p1 p2 : String) : String := p1 ++ getPathSeparator ++ p2

/-- Platform shared-library filename decoration for a logical library name. -/
def decorateLibraryName (library_name : String) : String :=
  "lib" ++ library_name ++ ".so"

/-- Modelled from the spec: `getROSBuildLibraryPath` — the package-relative
conventional library directory, `<package_root>/lib`. -/
def getROSBuildLibraryPath (packageRoot : String → String) (pkg : String) : String :=
  joinPaths (packageRoot pkg) "lib"

/-- Modelled from the spec: `getAllLibraryPathsToTry` — the ordered candidate
paths for a library: first each centrally-registered Catkin library directory
combined with the decorated name (strategy 1), then the rosbuild
package-relative `<package_root>/lib/<decorated_name>` (strategy 2). -/
def getAllLibraryPathsToTry (catkinPaths : List String)
    (packageRoot : String → String) (library_name pkg : String) : List String :=
  catkinPaths.map (fun d => joinPaths d (decorateLibraryName library_name)) ++
    [joinPaths (getROSBuildLibraryPath packageRoot pkg) (decorateLibraryName library_name)]

/-- Modelled from the spec: the resolution step of `loadClassLibraryInternal` —
try the candidates in order and return the first that passes the
filesystem-existence check; when none exists, fail with `LibraryNotFoundError`
naming the library, the owning package and every candidate tried, in order. -/
def resolveLibraryPath (fsExists : String → Bool) (catkinPaths : List String)
    (packageRoot : String → String) (library_name pkg : String) :
    Except PluginlibError String :=
  let candidates := getAllLibraryPathsToTry catkinPaths packageRoot library_name pkg
  match candidates.find? fsExists with
  | some path => Except.ok path
  | none => Except.error (PluginlibError.libraryNotFoundError library_name pkg candidates)

/-- The external collaborators of §1, bundled: filesystem-existence check,
dynamic open/close primitives, the instantiate-by-type-name primitive, the
Catkin library-search directories and the per-package rosbuild root. -/
structure Env where
  fsExists : String → Bool
  openOk : String → Bool
  closeOk : String → Bool
  instOk : String → Bool
  catkinPaths : List String
  packageRoot : String → String

/-- The full `ClassLoader` state: the descriptor registry
(`classes_available_`) and the lifecycle-manager state of the underlying
loader. -/
structure SysState where
  registry : List ClassDesc
  lcm : LcmState

/-- Modelled from the spec: `refreshDeclaredClasses` — re-runs discovery and
atomically replaces the registry; lifecycle state is untouched. -/
def refreshDeclaredClasses (manifest : List ClassDesc) (base_class : String)
    (sys : SysState) : SysState :=
  { sys with registry := determineAvailableClasses manifest base_class }

/-- Modelled from the spec: `loadLibraryForClass` — look up the descriptor,
resolve the library path and acquire the library, returning the resolved
path. -/
def loadLibraryForClass (env : Env) (sys : SysState) (n : String) :
    Except PluginlibError String × SysState :=
  match lookupDesc sys.registry n with
  | none =>
      (Except.error (PluginlibError.unknownClassError (getErrorStringForUnknownClass sys.registry n)), sys)
  | some d =>
      match resolveLibraryPath env.fsExists env.catkinPaths env.packageRoot
          d.library_name d.declaring_package with
      | Except.error e => (Except.error e, sys)
      | Except.ok path =>
          match acquire env.openOk sys.lcm path with
          | (Except.ok _, lcm1) => (Except.ok path, { sys with lcm := lcm1 })
          | (Except.error e, lcm1) => (Except.error e, { sys with lcm := lcm1 })

/-- Modelled from the spec: `unloadLibraryForClass` — look up the descriptor,
re-resolve the library path and release the claim, returning the remaining
refcount. -/
def unloadLibraryForClass (env : Env) (sys : SysState) (n : String) :
    Except PluginlibError Nat × SysState :=
  match lookupDesc sys.registry n with
  | none =>
      (Except.error (PluginlibError.unknownClassError (getErrorStringForUnknownClass sys.registry n)), sys)
  | some d =>
      match resolveLibraryPath env.fsExists env.catkinPaths env.packageRoot
          d.library_name d.declaring_package with
      | Except.error e => (Except.error e, sys)
      | Except.ok path =>
          let r := release env.closeOk sys.lcm path
          (r.1, { sys with lcm := r.2 })

/-- An unmanaged raw instance: the instantiated implementation type together
with the library path whose refcount it claims. -/
structure RawInstance where
  implementationType : String
  libraryPath : String
deriving DecidableEq, Repr

/-- A managed handle: the raw instance wrapped so that final disposal releases
the library claim. -/
structure ManagedHandle where
  raw : RawInstance
deriving DecidableEq, Repr

/-- Modelled from the spec: `createUnmanagedInstance` — steps 1–4 of §4.4:
look up the descriptor (`UnknownClassError`), resolve the path
(`LibraryNotFoundError`), acquire the library (`LibraryLoadError`), then
instantiate the implementation type; if instantiation fails, release the
just-acquired claim and fail with `InstantiationError`. -/
def createUnmanagedInstance (env : Env) (sys : SysState) (n : String) :
    Except PluginlibError RawInstance × SysState :=
  match lookupDesc sys.registry n with
  | none =>
      (Except.error (PluginlibError.unknownClassError (getErrorStringForUnknownClass sys.registry n)), sys)
  | some d =>
      match resolveLibraryPath env.fsExists env.catkinPaths env.packageRoot
          d.library_name d.declaring_package with
      | Except.error e => (Except.error e, sys)
      | Except.ok path =>
          match acquire env.openOk sys.lcm path with
          | (Except.error e, lcm1) => (Except.error e, { sys with lcm := lcm1 })
          | (Except.ok _, lcm1) =>
              if env.instOk d.implementation_type then
                (Except.ok ⟨d.implementation_type, path⟩, { sys with lcm := lcm1 })
              else
                (Except.error (PluginlibError.instantiationError d.implementation_type),
                  { sys with lcm := (release env.closeOk lcm1 path).2 })

/-- Modelled from the spec: `createInstance` — identical steps 1–4, then wrap
the instance in a managed handle (step 5). -/
def createInstance (env : Env) (sys : SysState) (n : String) :
    Except PluginlibError ManagedHandle × SysState :=
  match createUnmanagedInstance env sys n with
  | (Except.ok raw, sys1) => (Except.ok ⟨raw⟩, sys1)
  | (Except.error e, sys1) => (Except.error e, sys1)

/-- Modelled from the spec: final disposal of a managed handle — destroy the
instance, then release the owning library claim. -/
def disposeManagedHandle (env : Env) (sys : SysState) (h : ManagedHandle) :
    Except PluginlibError Nat × SysState :=
  let r := release env.closeOk sys.lcm h.raw.libraryPath
  (r.1, { sys with lcm := r.2 })

/-- `isClassLoaded(lookup_name)`: resolve the path and query the lifecycle
manager. -/
def isClassLoaded (env : Env) (sys : SysState) (n : String) : Bool :=
  match lookupDesc sys.registry n with
  | none => false
  | some d =>
      match resolveLibraryPath env.fsExists env.catkinPaths env.packageRoot
          d.library_name d.declaring_package with
      | Except.error _ => false
      | Except.ok path => isLibraryLoaded sys.lcm path

/-- Modelled from the spec: the `ClassLoader` constructor — runs
`determineAvailableClasses` for the package manifest; when the package
manifest cannot be found it fails with `LibraryLoadException`, so no registry
object is produced. -/
def classLoaderCtor (manifestFound : Bool) (manifest : List ClassDesc)
    (package base_class : String) : Except PluginlibError (List ClassDesc) :=
  if manifestFound then
    Except.ok (determineAvailableClasses manifest base_class)
  else
    Except.error (PluginlibError.libraryLoadException
      ("Unable to find package manifest for package " ++ package))

/-- One method declaration of the public header, as the interface surface the
header exposes: name, access specifier, and whether it carries the deprecated
attribute (from class_loader.h lines 131–159). -/
structure MethodDecl where
  methodName : String
  visibility : String
  deprecatedAttr : Bool
deriving DecidableEq, Repr

/-- The instance-creation operations declared by class_loader.h:
`createClassInstance` (line 140, `__attribute__((deprecated))`),
`createInstance` (line 149) and `createUnmanagedInstance` (line 159), all in
the public section. -/
def instanceCreationMethods : List MethodDecl :=
  [⟨"createClassInstance", "public", true⟩,
   ⟨"createInstance", "public", false⟩,
   ⟨"createUnmanagedInstance", "public", false⟩]

/-- The names of the instance-creation operations exposed on the public
surface. -/
def exposedCreationOps : List String :=
  (instanceCreationMethods.filter (fun m => m.visibility == "public")).map
    (fun m => m.methodName)

/-- The §3 steady-state invariant: every record in the lifecycle map is
Loaded exactly when its refcount is positive. -/
def LcmInv (s : LcmState) : Prop :=
  ∀ p r, s.records p = some r → (r.state = LibState.Loaded ↔ 0 < r.refcount)

/-- A trivial environment for concrete witnesses: every collaborator call
succeeds, no Catkin search directories, package roots at "/root". -/
def envTriv : Env :=
  ⟨fun _ => true, fun _ => true, fun _ => true, fun _ => true, [], fun _ => "/root"⟩

/-- An empty system state for concrete witnesses. -/
def sysTriv : SysState := ⟨[], LcmState.empty⟩

/-- k-fold iteration of `acquire` on a fixed path. -/
def acquireN (openOk : String → Bool) (p : String) : Nat → LcmState → LcmState
  | 0, s => s
  | k + 1, s => (acquire openOk (acquireN openOk p k s) p).2

/-- k-fold iteration of `release` on a fixed path. -/
def releaseN (closeOk : String → Bool) (p : String) : Nat → LcmState → LcmState
  | 0, s => s
  | k + 1, s => (release closeOk (releaseN closeOk p k s) p).2

/-! ### Basic lemmas about the record map -/

theorem setRecord_same (m : String → Option LibraryRecord) (p : String)
    (r : LibraryRecord) : setRecord m p r p = some r := by
  simp [setRecord]

theorem setRecord_other (m : String → Option LibraryRecord) (p q : String)
    (r : LibraryRecord) (h : q ≠ p) : setRecord m p r q = m q := by
  simp [setRecord, h]

/-! ### C4: behaviour of acquire -/

/-- C4: `acquire(p)` creates a record with refcount 0 and state Unloaded when
none exists; when the record is Unloaded it performs the dynamic open (an open
event is issued), and on open failure it fails with `LibraryLoadError`
leaving the record Unloaded with refcount unchanged; on success, or when the
record is already Loaded, it increments the refcount and returns the record
(no open event in the already-Loaded case). -/
theorem acquire_behaviour (openOk : String → Bool) (s : LcmState) (p : String) :
    (s.records p = none → openOk p = false →
      (acquire openOk s p).1 = Except.error (PluginlibError.libraryLoadError p) ∧
      (acquire openOk s p).2.records p = some ⟨p, LibState.Unloaded, 0⟩ ∧
      (acquire openOk s p).2.openEvents = s.openEvents ++ [p]) ∧
    (∀ r, s.records p = some r → r.state = LibState.Unloaded → openOk p = false →
      (acquire openOk s p).1 = Except.error (PluginlibError.libraryLoadError p) ∧
      (acquire openOk s p).2.records p = some ⟨p, LibState.Unloaded, r.refcount⟩ ∧
      (acquire openOk s p).2.openEvents = s.openEvents ++ [p]) ∧
    (s.records p = none → openOk p = true →
      (acquire openOk s p).1 = Except.ok ⟨p, LibState.Loaded, 1⟩ ∧
      (acquire openOk s p).2.records p = some ⟨p, LibState.Loaded, 1⟩ ∧
      (acquire openOk s p).2.openEvents = s.openEvents ++ [p]) ∧
    (∀ r, s.records p = some r → r.state = LibState.Unloaded → openOk p = true →
      (acquire openOk s p).1 = Except.ok ⟨p, LibState.Loaded, r.refcount + 1⟩ ∧
      (acquire openOk s p).2.records p = some ⟨p, LibState.Loaded, r.refcount + 1⟩ ∧
      (acquire openOk s p).2.openEvents = s.openEvents ++ [p]) ∧
    (∀ r, s.records p = some r → r.state = LibState.Loaded →
      (acquire openOk s p).1 = Except.ok ⟨p, LibState.Loaded, r.refcount + 1⟩ ∧
      (acquire openOk s p).2.records p = some ⟨p, LibState.Loaded, r.refcount + 1⟩ ∧
      (acquire openOk s p).2.openEvents = s.openEvents) := by
  refine ⟨?_, ?_, ?_, ?_, ?_⟩
  · intro hnone hopen
    simp [acquire, hnone, hopen, setRecord_same]
  · intro r hr hst hopen
    simp [acquire, hr, hst, hopen, setRecord_same]
  · intro hnone hopen
    simp [acquire, hnone, hopen, setRecord_same]
  · intro r hr hst hopen
    simp [acquire, hr, hst, hopen, setRecord_same]
  · intro r hr hst
    simp [acquire, hr, hst, setRecord_same]

/-- Witness for C4: from the empty state with a succeeding opener, acquiring
the path "p" loads it with refcount 1. -/
theorem acquire_behaviour_witness :
    (LcmState.empty.records "p" = none ∧ (fun _ => true : String → Bool) "p" = true) ∧
    ((acquire (fun _ => true) LcmState.empty "p").1 =
        Except.ok ⟨"p", LibState.Loaded, 1⟩ ∧
      (acquire (fun _ => true) LcmState.empty "p").2.records "p" =
        some ⟨"p", LibState.Loaded, 1⟩ ∧
      (acquire (fun _ => true) LcmState.empty "p").2.openEvents =
        LcmState.empty.openEvents ++ ["p"]) :=
  ⟨⟨rfl, rfl⟩, (acquire_behaviour (fun _ => true) LcmState.empty "p").2.2.1 rfl rfl⟩

/-! ### C5: release surfaces double-release -/

/-- C5: `release(p)` fails with `NotLoadedError` when no record for p exists
or its refcount is already 0, leaving the state unchanged; in particular,
after a release that brings a single outstanding claim to 0, a second release
of the same path fails with `NotLoadedError` rather than being ignored. -/
theorem release_not_loaded (closeOk : String → Bool) (s : LcmState) (p : String) :
    (s.records p = none →
      release closeOk s p = (Except.error (PluginlibError.notLoadedError p), s)) ∧
    (∀ r, s.records p = some r → r.refcount = 0 →
      release closeOk s p = (Except.error (PluginlibError.notLoadedError p), s)) ∧
    (∀ r, s.records p = some r → r.refcount = 1 →
      (release closeOk s p).2.records p = some ⟨p, LibState.Unloaded, 0⟩ ∧
      (release closeOk (release closeOk s p).2 p).1 =
        Except.error (PluginlibError.notLoadedError p)) := by
  refine ⟨?_, ?_, ?_⟩
  · intro hnone
    simp [release, hnone]
  · intro r hr h0
    simp [release, hr, h0]
  · intro r hr h1
    have key : ∀ t : LcmState, t.records p = some ⟨p, LibState.Unloaded, 0⟩ →
        (release closeOk t p).1 = Except.error (PluginlibError.notLoadedError p) := by
      intro t ht
      simp [release, ht]
    have hrec : (release closeOk s p).2.records p = some ⟨p, LibState.Unloaded, 0⟩ := by
      rcases hclose : closeOk p with _ | _ <;>
        simp [release, hr, h1, hclose, setRecord_same]
    exact ⟨hrec, key _ hrec⟩

/-- Witness for C5: a state holding "p" at refcount 1; the first release
empties it and the second fails with `NotLoadedError`. -/
theorem release_not_loaded_witness :
    ((setRecord LcmState.empty.records "p" ⟨"p", LibState.Loaded, 1⟩) "p" =
        some ⟨"p", LibState.Loaded, 1⟩ ∧
      (⟨"p", LibState.Loaded, 1⟩ : LibraryRecord).refcount = 1) ∧
    ((release (fun _ => true)
        { LcmState.empty with
            records := setRecord LcmState.empty.records "p" ⟨"p", LibState.Loaded, 1⟩ }
        "p").2.records "p" = some ⟨"p", LibState.Unloaded, 0⟩ ∧
      (release (fun _ => true)
        ((release (fun _ => true)
          { LcmState.empty with
              records := setRecord LcmState.empty.records "p" ⟨"p", LibState.Loaded, 1⟩ }
          "p").2) "p").1 = Except.error (PluginlibError.notLoadedError "p")) :=
  ⟨⟨rfl, rfl⟩,
    (release_not_loaded (fun _ => true)
      { LcmState.empty with
          records := setRecord LcmState.empty.records "p" ⟨"p", LibState.Loaded, 1⟩ }
      "p").2.2 ⟨"p", LibState.Loaded, 1⟩ rfl rfl⟩

/-! ### C9: the exposed instance-creation surface -/

/-- Counterexample to C9: the deprecated auto-loading convenience call
`createClassInstance` is not omitted — it is declared on the public surface of
class_loader.h alongside `createInstance` and `createUnmanagedInstance`. -/
theorem legacy_create_exposed :
    "createClassInstance" ∈ exposedCreationOps ∧
    exposedCreationOps ≠ ["createInstance", "createUnmanagedInstance"] := by
  decide

/-- C9 (amended): the public interface still declares the legacy auto-loading
call `createClassInstance`, but marks it deprecated; the non-deprecated
instance-creation operations are exactly `createInstance` and
`createUnmanagedInstance`. -/
theorem creation_surface :
    exposedCreationOps =
      ["createClassInstance", "createInstance", "createUnmanagedInstance"] ∧
    (instanceCreationMethods.filter
        (fun m => m.visibility == "public" && !m.deprecatedAttr)).map
      (fun m => m.methodName) = ["createInstance", "createUnmanagedInstance"] ∧
    (instanceCreationMethods.filter (fun m => m.deprecatedAttr)).map
      (fun m => m.methodName) = ["createClassInstance"] := by
  decide

/-! ### C10: constructor failure on a missing manifest -/

/-- C10: when the package manifest cannot be found the `ClassLoader`
constructor fails with `LibraryLoadException`, and a registry is only ever
produced when the manifest was found. -/
theorem classLoaderCtor_spec (found : Bool) (manifest : List ClassDesc)
    (package base_class : String) :
    (found = false → classLoaderCtor found manifest package base_class =
      Except.error (PluginlibError.libraryLoadException
        ("Unable to find package manifest for package " ++ package))) ∧
    (∀ reg, classLoaderCtor found manifest package base_class = Except.ok reg →
      found = true ∧ reg = determineAvailableClasses manifest base_class) := by
  constructor
  · intro h
    simp [classLoaderCtor, h]
  · intro reg h
    cases found with
    | false => simp [classLoaderCtor] at h
    | true =>
        simp [classLoaderCtor] at h
        exact ⟨rfl, h.symm⟩

/-- Witness for C10: with the manifest missing, the constructor fails with
`LibraryLoadException`. -/
theorem classLoaderCtor_spec_witness :
    (false = false) ∧
    classLoaderCtor false [] "pkgA" "base" =
      Except.error (PluginlibError.libraryLoadException
        ("Unable to find package manifest for package " ++ "pkgA")) :=
  ⟨rfl, (classLoaderCtor_spec false [] "pkgA" "base").1 rfl⟩

/-! ### C1: the Loaded-iff-refcount-positive invariant -/

theorem acquire_LcmInv (openOk : String → Bool) (s : LcmState) (p : String)
    (hs : LcmInv s) : LcmInv (acquire openOk s p).2 := by
  intro q r hq
  by_cases hqp : q = p
  case neg =>
    have hsame : (acquire openOk s p).2.records q = s.records q := by
      cases hrec : s.records p with
      | none =>
          cases hopen : openOk p <;>
            simp [acquire, hrec, hopen, setRecord, hqp]
      | some r0 =>
          cases hst : r0.state <;> cases hopen : openOk p <;>
            simp [acquire, hrec, hopen, hst, setRecord, hqp]
    rw [hsame] at hq
    exact hs q r hq
  case pos =>
    subst hqp
    cases hrec : s.records q with
    | none =>
        cases hopen : openOk q with
        | false =>
            have hset : (acquire openOk s q).2.records q =
                some ⟨q, LibState.Unloaded, 0⟩ := by
              simp [acquire, hrec, hopen, setRecord]
            rw [hset] at hq
            cases hq
            simp
        | true =>
            have hset : (acquire openOk s q).2.records q =
                some ⟨q, LibState.Loaded, 1⟩ := by
              simp [acquire, hrec, hopen, setRecord]
            rw [hset] at hq
            cases hq
            simp
    | some r0 =>
        cases hst : r0.state with
        | Unloaded =>
            have hzero : r0.refcount = 0 := by
              have hiff := hs q r0 hrec
              rw [hst] at hiff
              by_contra hne
              have hpos : 0 < r0.refcount := Nat.pos_of_ne_zero hne
              have := hiff.mpr hpos
              simp at this
            cases hopen : openOk q with
            | false =>
                have hset : (acquire openOk s q).2.records q =
                    some ⟨q, LibState.Unloaded, r0.refcount⟩ := by
                  simp [acquire, hrec, hopen, hst, setRecord]
                rw [hset] at hq
                cases hq
                simp [hzero]
            | true =>
                have hset : (acquire openOk s q).2.records q =
                    some ⟨q, LibState.Loaded, r0.refcount + 1⟩ := by
                  simp [acquire, hrec, hopen, hst, setRecord]
                rw [hset] at hq
                cases hq
                simp
        | Loaded =>
            have hset : (acquire openOk s q).2.records q =
                some ⟨q, LibState.Loaded, r0.refcount + 1⟩ := by
              simp [acquire, hrec, hst, setRecord]
            rw [hset] at hq
            cases hq
            simp

theorem release_LcmInv (closeOk : String → Bool) (s : LcmState) (p : String)
    (hs : LcmInv s) : LcmInv (release closeOk s p).2 := by
  intro q r hq
  cases hrec : s.records p with
  | none =>
      have hsame : (release closeOk s p).2 = s := by
        simp [release, hrec]
      rw [hsame] at hq
      exact hs q r hq
  | some r0 =>
      by_cases h0 : r0.refcount = 0
      · have hsame : (release closeOk s p).2 = s := by
          simp [release, hrec, h0]
        rw [hsame] at hq
        exact hs q r hq
      · by_cases hqp : q = p
        case neg =>
            have hsame : (release closeOk s p).2.records q = s.records q := by
              by_cases hn : r0.refcount - 1 = 0 <;>
                cases hclose : closeOk p <;>
                  simp [release, hrec, h0, hn, hclose, setRecord, hqp]
            rw [hsame] at hq
            exact hs q r hq
        case pos =>
            subst hqp
            by_cases hn : r0.refcount - 1 = 0
            · have hset : (release closeOk s q).2.records q =
                  some ⟨q, LibState.Unloaded, 0⟩ := by
                cases hclose : closeOk q <;>
                  simp [release, hrec, h0, hn, hclose, setRecord]
              rw [hset] at hq
              cases hq
              simp
            · have hloaded : r0.state = LibState.Loaded :=
                (hs q r0 hrec).mpr (Nat.pos_of_ne_zero h0)
              have hset : (release closeOk s q).2.records q =
                  some ⟨q, r0.state, r0.refcount - 1⟩ := by
                simp [release, hrec, h0, hn, setRecord]
              rw [hset] at hq
              cases hq
              simp [hloaded, Nat.pos_of_ne_zero hn]

theorem createUnmanaged_LcmInv (env : Env) (sys : SysState) (n : String)
    (hs : LcmInv sys.lcm) : LcmInv (createUnmanagedInstance env sys n).2.lcm := by
  cases hd : lookupDesc sys.registry n with
  | none => simpa [createUnmanagedInstance, hd] using hs
  | some d =>
      cases hres : resolveLibraryPath env.fsExists env.catkinPaths env.packageRoot
          d.library_name d.declaring_package with
      | error e => simpa [createUnmanagedInstance, hd, hres] using hs
      | ok path =>
          have hacq : LcmInv (acquire env.openOk sys.lcm path).2 :=
            acquire_LcmInv env.openOk sys.lcm path hs
          cases hac : acquire env.openOk sys.lcm path with
          | mk res lcm1 =>
              rw [hac] at hacq
              cases res with
              | error e =>
                  simpa [createUnmanagedInstance, hd, hres, hac] using hacq
              | ok r =>
                  cases hinst : env.instOk d.implementation_type with
                  | true =>
                      simpa [createUnmanagedInstance, hd, hres, hac, hinst] using hacq
                  | false =>
                      simpa [createUnmanagedInstance, hd, hres, hac, hinst] using
                        release_LcmInv env.closeOk lcm1 path hacq

/-- C1: the `Loaded ⇔ refcount > 0` invariant is preserved by every
operation of the lifecycle manager and the instance factory: acquire,
release, createInstance (createManaged), createUnmanagedInstance, and
disposal of a managed handle — no operation leaves a record claiming Loaded
with refcount 0 (or Unloaded with a positive refcount). -/
theorem lifecycle_state_refcount_invariant (env : Env)
    (openOk closeOk : String → Bool) (s : LcmState) (sys : SysState)
    (p n : String) (h : ManagedHandle)
    (hs : LcmInv s) (hsys : LcmInv sys.lcm) :
    LcmInv (acquire openOk s p).2 ∧
    LcmInv (release closeOk s p).2 ∧
    LcmInv (createInstance env sys n).2.lcm ∧
    LcmInv (createUnmanagedInstance env sys n).2.lcm ∧
    LcmInv (disposeManagedHandle env sys h).2.lcm := by
  refine ⟨acquire_LcmInv openOk s p hs, release_LcmInv closeOk s p hs, ?_,
    createUnmanaged_LcmInv env sys n hsys, ?_⟩
  · have hu : LcmInv (createUnmanagedInstance env sys n).2.lcm :=
      createUnmanaged_LcmInv env sys n hsys
    cases hc : createUnmanagedInstance env sys n with
    | mk res sys1 =>
        rw [hc] at hu
        cases res with
        | error e => simpa [createInstance, hc] using hu
        | ok raw => simpa [createInstance, hc] using hu
  · exact release_LcmInv env.closeOk sys.lcm h.raw.libraryPath hsys

/-- Witness for C1: the invariant holds of the empty state and is preserved
by an acquire of "p" there. -/
theorem lifecycle_state_refcount_invariant_witness :
    LcmInv LcmState.empty ∧
    LcmInv (acquire (fun _ => true) LcmState.empty "p").2 :=
  have hinv : LcmInv LcmState.empty := fun _ _ hq => nomatch hq
  ⟨hinv,
    (lifecycle_state_refcount_invariant envTriv (fun _ => true) (fun _ => true)
      LcmState.empty sysTriv "p" "n" ⟨⟨"t", "p"⟩⟩ hinv hinv).1⟩

/-! ### C2: a failed instantiation leaks no refcount -/

theorem acquire_ok_result (openOk : String → Bool) (s : LcmState) (p : String)
    (hopen : openOk p = true) :
    (acquire openOk s p).1 =
      Except.ok ⟨p, LibState.Loaded, refcountOf s p + 1⟩ := by
  cases hrec : s.records p with
  | none => simp [acquire, refcountOf, hrec, hopen]
  | some r0 =>
      cases hst : r0.state <;>
        simp [acquire, refcountOf, hrec, hst, hopen]

theorem acquire_ok_records (openOk : String → Bool) (s : LcmState) (p : String)
    (hopen : openOk p = true) :
    (acquire openOk s p).2.records =
      setRecord s.records p ⟨p, LibState.Loaded, refcountOf s p + 1⟩ := by
  cases hrec : s.records p with
  | none => simp [acquire, refcountOf, hrec, hopen]
  | some r0 =>
      cases hst : r0.state <;>
        simp [acquire, refcountOf, hrec, hst, hopen]

theorem release_refcountOf (closeOk : String → Bool) (s : LcmState) (p : String)
    (r0 : LibraryRecord) (hr : s.records p = some r0) (hpos : r0.refcount ≠ 0) :
    ∀ q, refcountOf (release closeOk s p).2 q =
      if q = p then r0.refcount - 1 else refcountOf s q := by
  intro q
  by_cases hn : r0.refcount - 1 = 0 <;>
    cases hclose : closeOk p <;>
      by_cases hqp : q = p <;>
        simp [release, refcountOf, setRecord, hr, hpos, hn, hclose, hqp]

/-- C2: when the descriptor, library path and library open of a qualified
name all succeed but the instantiation step fails, `createUnmanagedInstance`
and `createInstance` fail with `InstantiationError` and release the library
claim acquired in step 3, so every library refcount after the failed call
equals its refcount before the call. -/
theorem instantiation_failure_no_refcount_leak (env : Env) (sys : SysState)
    (n : String) (d : ClassDesc) (path : String)
    (hd : lookupDesc sys.registry n = some d)
    (hres : resolveLibraryPath env.fsExists env.catkinPaths env.packageRoot
      d.library_name d.declaring_package = Except.ok path)
    (hopen : env.openOk path = true)
    (hinst : env.instOk d.implementation_type = false) :
    ((createUnmanagedInstance env sys n).1 =
        Except.error (PluginlibError.instantiationError d.implementation_type) ∧
      ∀ q, refcountOf (createUnmanagedInstance env sys n).2.lcm q =
        refcountOf sys.lcm q) ∧
    ((createInstance env sys n).1 =
        Except.error (PluginlibError.instantiationError d.implementation_type) ∧
      ∀ q, refcountOf (createInstance env sys n).2.lcm q =
        refcountOf sys.lcm q) := by
  have hacq1 := acquire_ok_result env.openOk sys.lcm path hopen
  have hacq2 := acquire_ok_records env.openOk sys.lcm path hopen
  cases hac : acquire env.openOk sys.lcm path with
  | mk res lcm1 =>
      rw [hac] at hacq1 hacq2
      simp only at hacq1 hacq2
      subst hacq1
      have hu1 : (createUnmanagedInstance env sys n).1 =
          Except.error (PluginlibError.instantiationError d.implementation_type) := by
        simp [createUnmanagedInstance, hd, hres, hac, hinst]
      have hu2 : ∀ q, refcountOf (createUnmanagedInstance env sys n).2.lcm q =
          refcountOf sys.lcm q := by
        intro q
        have hlcm : (createUnmanagedInstance env sys n).2.lcm =
            (release env.closeOk lcm1 path).2 := by
          simp [createUnmanagedInstance, hd, hres, hac, hinst]
        rw [hlcm]
        have hrec1 : lcm1.records path =
            some ⟨path, LibState.Loaded, refcountOf sys.lcm path + 1⟩ := by
          rw [hacq2]
          exact setRecord_same _ _ _
        have hrel := release_refcountOf env.closeOk lcm1 path
          ⟨path, LibState.Loaded, refcountOf sys.lcm path + 1⟩ hrec1 (by simp) q
        rw [hrel]
        by_cases hqp : q = path
        · simp [hqp]
        · have : lcm1.records q = sys.lcm.records q := by
            rw [hacq2]
            exact setRecord_other _ _ _ _ hqp
          simp [hqp, refcountOf, this]
      refine ⟨⟨hu1, hu2⟩, ?_⟩
      cases hc : createUnmanagedInstance env sys n with
      | mk resu sysu =>
          rw [hc] at hu1 hu2
          simp only at hu1 hu2
          subst hu1
          constructor
          · simp [createInstance, hc]
          · intro q
            have : (createInstance env sys n).2 = sysu := by
              simp [createInstance, hc]
            rw [this]
            exact hu2 q

/-- Witness for C2: one descriptor "pkgA/Foo", an environment where every
path exists and opens but instantiation always fails; the refcount of the
resolved path is unchanged by the failed call. -/
theorem instantiation_failure_no_refcount_leak_witness :
    (lookupDesc [⟨"pkgA/Foo", "FooImpl", "Base", "", "pkgA", "foo", "/m.xml"⟩]
        "pkgA/Foo" =
      some ⟨"pkgA/Foo", "FooImpl", "Base", "", "pkgA", "foo", "/m.xml"⟩ ∧
      resolveLibraryPath (fun _ => true) [] (fun _ => "/root") "foo" "pkgA" =
        Except.ok "/root/lib/libfoo.so") ∧
    ((createUnmanagedInstance
        ⟨fun _ => true, fun _ => true, fun _ => true, fun _ => false, [],
          fun _ => "/root"⟩
        ⟨[⟨"pkgA/Foo", "FooImpl", "Base", "", "pkgA", "foo", "/m.xml"⟩],
          LcmState.empty⟩ "pkgA/Foo").1 =
      Except.error (PluginlibError.instantiationError "FooImpl") ∧
      refcountOf (createUnmanagedInstance
        ⟨fun _ => true, fun _ => true, fun _ => true, fun _ => false, [],
          fun _ => "/root"⟩
        ⟨[⟨"pkgA/Foo", "FooImpl", "Base", "", "pkgA", "foo", "/m.xml"⟩],
          LcmState.empty⟩ "pkgA/Foo").2.lcm "/root/lib/libfoo.so" =
      refcountOf LcmState.empty "/root/lib/libfoo.so") :=
  have h := instantiation_failure_no_refcount_leak
    ⟨fun _ => true, fun _ => true, fun _ => true, fun _ => false, [],
      fun _ => "/root"⟩
    ⟨[⟨"pkgA/Foo", "FooImpl", "Base", "", "pkgA", "foo", "/m.xml"⟩],
      LcmState.empty⟩ "pkgA/Foo"
    ⟨"pkgA/Foo", "FooImpl", "Base", "", "pkgA", "foo", "/m.xml"⟩
    "/root/lib/libfoo.so" rfl rfl rfl rfl
  ⟨⟨rfl, rfl⟩, ⟨h.1.1, h.1.2 "/root/lib/libfoo.so"⟩⟩

/-! ### C3: k acquires and k releases are one physical open and close -/

theorem acquire_fresh_step (openOk : String → Bool) (s : LcmState) (p : String)
    (hopen : openOk p = true) (hr : s.records p = none) :
    (acquire openOk s p).2.records p = some ⟨p, LibState.Loaded, 1⟩ ∧
    (acquire openOk s p).2.openEvents = s.openEvents ++ [p] ∧
    (acquire openOk s p).2.closeEvents = s.closeEvents := by
  simp [acquire, hr, hopen, setRecord]

theorem acquire_loaded_step (openOk : String → Bool) (s : LcmState) (p : String)
    (m : Nat) (hr : s.records p = some ⟨p, LibState.Loaded, m⟩) :
    (acquire openOk s p).2.records p = some ⟨p, LibState.Loaded, m + 1⟩ ∧
    (acquire openOk s p).2.openEvents = s.openEvents ∧
    (acquire openOk s p).2.closeEvents = s.closeEvents := by
  simp [acquire, hr, setRecord]

theorem acquireN_fresh (openOk : String → Bool) (p : String) (j : Nat) :
    ∀ s : LcmState, openOk p = true → s.records p = none →
    (acquireN openOk p (j + 1) s).records p = some ⟨p, LibState.Loaded, j + 1⟩ ∧
    (acquireN openOk p (j + 1) s).openEvents = s.openEvents ++ [p] ∧
    (acquireN openOk p (j + 1) s).closeEvents = s.closeEvents := by
  induction j with
  | zero =>
      intro s hopen hr
      simpa [acquireN] using acquire_fresh_step openOk s p hopen hr
  | succ j ih =>
      intro s hopen hr
      obtain ⟨h1, h2, h3⟩ := ih s hopen hr
      obtain ⟨g1, g2, g3⟩ :=
        acquire_loaded_step openOk (acquireN openOk p (j + 1) s) p (j + 1) h1
      rw [h2] at g2
      rw [h3] at g3
      exact ⟨by simpa [acquireN] using g1,
        by simpa [acquireN] using g2,
        by simpa [acquireN] using g3⟩

theorem release_step_pos (closeOk : String → Bool) (s : LcmState) (p : String)
    (m : Nat) (hm : m ≠ 0)
    (hr : s.records p = some ⟨p, LibState.Loaded, m + 1⟩) :
    (release closeOk s p).2.records p = some ⟨p, LibState.Loaded, m⟩ ∧
    (release closeOk s p).2.openEvents = s.openEvents ∧
    (release closeOk s p).2.closeEvents = s.closeEvents := by
  simp [release, hr, hm, setRecord]

theorem release_last (closeOk : String → Bool) (s : LcmState) (p : String)
    (hr : s.records p = some ⟨p, LibState.Loaded, 1⟩) :
    (release closeOk s p).2.records p = some ⟨p, LibState.Unloaded, 0⟩ ∧
    (release closeOk s p).2.openEvents = s.openEvents ∧
    (release closeOk s p).2.closeEvents = s.closeEvents ++ [p] := by
  cases hclose : closeOk p <;> simp [release, hr, hclose, setRecord]

theorem releaseN_partial (closeOk : String → Bool) (p : String) (j : Nat) :
    ∀ (s : LcmState) (m : Nat), s.records p = some ⟨p, LibState.Loaded, m⟩ →
    j < m →
    (releaseN closeOk p j s).records p = some ⟨p, LibState.Loaded, m - j⟩ ∧
    (releaseN closeOk p j s).openEvents = s.openEvents ∧
    (releaseN closeOk p j s).closeEvents = s.closeEvents := by
  induction j with
  | zero =>
      intro s m hr _
      simpa [releaseN] using hr
  | succ j ih =>
      intro s m hr hj
      obtain ⟨h1, h2, h3⟩ := ih s m hr (by omega)
      have hrepr : m - j = (m - (j + 1)) + 1 := by omega
      rw [hrepr] at h1
      obtain ⟨g1, g2, g3⟩ := release_step_pos closeOk (releaseN closeOk p j s) p
        (m - (j + 1)) (by omega) h1
      rw [h2] at g2
      rw [h3] at g3
      exact ⟨by simpa [releaseN] using g1,
        by simpa [releaseN] using g2,
        by simpa [releaseN] using g3⟩

/-- C3: for every path p and k ≥ 1, acquiring p k times and then releasing
it k times performs exactly one physical open and one physical close of p,
and leaves p's record in state Unloaded with refcount 0. -/
theorem acquire_release_balanced (openOk closeOk : String → Bool)
    (s : LcmState) (p : String) (k : Nat) (hk : 1 ≤ k)
    (hopen : openOk p = true) (hs : s.records p = none) :
    (releaseN closeOk p k (acquireN openOk p k s)).records p =
      some ⟨p, LibState.Unloaded, 0⟩ ∧
    (releaseN closeOk p k (acquireN openOk p k s)).openEvents.count p =
      s.openEvents.count p + 1 ∧
    (releaseN closeOk p k (acquireN openOk p k s)).closeEvents.count p =
      s.closeEvents.count p + 1 := by
  obtain ⟨j, rfl⟩ : ∃ j, k = j + 1 := ⟨k - 1, by omega⟩
  obtain ⟨hA1, hA2, hA3⟩ := acquireN_fresh openOk p j s hopen hs
  obtain ⟨hP1, hP2, hP3⟩ := releaseN_partial closeOk p j
    (acquireN openOk p (j + 1) s) (j + 1) hA1 (by omega)
  have hone : (j + 1) - j = 1 := by omega
  rw [hone] at hP1
  obtain ⟨hL1, hL2, hL3⟩ :=
    release_last closeOk (releaseN closeOk p j (acquireN openOk p (j + 1) s)) p hP1
  refine ⟨by simpa [releaseN] using hL1, ?_, ?_⟩
  · have : (releaseN closeOk p (j + 1) (acquireN openOk p (j + 1) s)).openEvents =
        s.openEvents ++ [p] := by
      simpa [releaseN, hP2, hA2] using hL2
    simp [this, List.count_append]
  · have : (releaseN closeOk p (j + 1) (acquireN openOk p (j + 1) s)).closeEvents =
        s.closeEvents ++ [p] := by
      simpa [releaseN, hP3, hA3] using hL3
    simp [this, List.count_append]

/-- Witness for C3: three acquires and three releases of "p" from the empty
state leave it Unloaded at refcount 0 after exactly one open and close. -/
theorem acquire_release_balanced_witness :
    ((1 : Nat) ≤ 3 ∧ (fun _ => true : String → Bool) "p" = true ∧
      LcmState.empty.records "p" = none) ∧
    ((releaseN (fun _ => true) "p" 3
        (acquireN (fun _ => true) "p" 3 LcmState.empty)).records "p" =
      some ⟨"p", LibState.Unloaded, 0⟩ ∧
      (releaseN (fun _ => true) "p" 3
        (acquireN (fun _ => true) "p" 3 LcmState.empty)).openEvents.count "p" =
        LcmState.empty.openEvents.count "p" + 1 ∧
      (releaseN (fun _ => true) "p" 3
        (acquireN (fun _ => true) "p" 3 LcmState.empty)).closeEvents.count "p" =
        LcmState.empty.closeEvents.count "p" + 1) :=
  ⟨⟨by decide, rfl, rfl⟩,
    acquire_release_balanced (fun _ => true) (fun _ => true) LcmState.empty "p" 3
      (by decide) rfl rfl⟩

/-! ### C6: path resolution takes the first existing candidate -/

theorem find_first_spec {α : Type} (P : α → Bool) :
    ∀ (l : List α) (a : α), l.find? P = some a →
      ∃ l1 l2, l = l1 ++ a :: l2 ∧ P a = true ∧ ∀ x ∈ l1, P x = false := by
  intro l
  induction l with
  | nil => intro a h; simp at h
  | cons x xs ih =>
      intro a h
      cases hx : P x with
      | true =>
          rw [List.find?_cons_of_pos _ hx] at h
          cases h
          exact ⟨[], xs, rfl, hx, by simp⟩
      | false =>
          rw [List.find?_cons_of_neg _ (by simp [hx])] at h
          obtain ⟨l1, l2, rfl, hPa, hl1⟩ := ih a h
          refine ⟨x :: l1, l2, rfl, hPa, ?_⟩
          intro y hy
          rcases List.mem_cons.mp hy with rfl | hy2
          · exact hx
          · exact hl1 y hy2

/-- C6: resolution enumerates the candidate absolute paths in the fixed
strategy order and returns the first candidate passing the
filesystem-existence check (every earlier candidate fails the check); when no
candidate exists it fails with `LibraryNotFoundError` naming the library, the
owning package and every candidate tried, in strategy order. -/
theorem resolve_library_path_spec (fsExists : String → Bool)
    (catkinPaths : List String) (packageRoot : String → String)
    (library_name pkg : String) :
    (∀ path, resolveLibraryPath fsExists catkinPaths packageRoot library_name pkg =
        Except.ok path →
      ∃ pre post,
        getAllLibraryPathsToTry catkinPaths packageRoot library_name pkg =
          pre ++ path :: post ∧
        fsExists path = true ∧ ∀ c ∈ pre, fsExists c = false) ∧
    ((∀ c ∈ getAllLibraryPathsToTry catkinPaths packageRoot library_name pkg,
        fsExists c = false) →
      resolveLibraryPath fsExists catkinPaths packageRoot library_name pkg =
        Except.error (PluginlibError.libraryNotFoundError library_name pkg
          (getAllLibraryPathsToTry catkinPaths packageRoot library_name pkg))) := by
  constructor
  · intro path h
    cases hf : (getAllLibraryPathsToTry catkinPaths packageRoot library_name pkg).find?
        fsExists with
    | none => simp [resolveLibraryPath, hf] at h
    | some c =>
        have hc : c = path := by
          simpa [resolveLibraryPath, hf] using h
        subst hc
        exact find_first_spec fsExists _ c hf
  · intro hall
    have hf : (getAllLibraryPathsToTry catkinPaths packageRoot library_name pkg).find?
        fsExists = none := by
      rw [List.find?_eq_none]
      intro x hx
      simp [hall x hx]
    simp [resolveLibraryPath, hf]

/-- Witness for C6: with no candidate existing on disk, resolution fails with
`LibraryNotFoundError` listing both candidates in strategy order. -/
theorem resolve_library_path_spec_witness :
    (∀ c ∈ getAllLibraryPathsToTry ["/opt/ros/lib"] (fun _ => "/ws/pkgA") "foo" "pkgA",
      (fun _ => false : String → Bool) c = false) ∧
    resolveLibraryPath (fun _ => false) ["/opt/ros/lib"] (fun _ => "/ws/pkgA")
        "foo" "pkgA" =
      Except.error (PluginlibError.libraryNotFoundError "foo" "pkgA"
        (getAllLibraryPathsToTry ["/opt/ros/lib"] (fun _ => "/ws/pkgA") "foo" "pkgA")) :=
  ⟨fun _ _ => rfl,
    (resolve_library_path_spec (fun _ => false) ["/opt/ros/lib"]
      (fun _ => "/ws/pkgA") "foo" "pkgA").2 (fun _ _ => rfl)⟩

/-! ### C7: names absent after a refresh -/

/-- C7: a qualified name that is not present in the registry map produced by
a refresh is reported unavailable, and describing it fails with
`UnknownClassError`. -/
theorem refresh_absent_class (manifest : List ClassDesc) (base_class n : String)
    (sys : SysState)
    (h : lookupDesc (refreshDeclaredClasses manifest base_class sys).registry n = none) :
    isClassAvailable (refreshDeclaredClasses manifest base_class sys).registry n =
      false ∧
    getClassDescription (refreshDeclaredClasses manifest base_class sys).registry n =
      Except.error (PluginlibError.unknownClassError
        (getErrorStringForUnknownClass
          (refreshDeclaredClasses manifest base_class sys).registry n)) := by
  constructor
  · simp [isClassAvailable, h]
  · simp [getClassDescription, h]

/-- Witness for C7: a refresh that declares only "pkgA/Foo"; the name
"pkgB/Bar" is unavailable and describe fails with `UnknownClassError`. -/
theorem refresh_absent_class_witness :
    lookupDesc (refreshDeclaredClasses
        [⟨"pkgA/Foo", "FooImpl", "Base", "", "pkgA", "foo", "/m.xml"⟩] "Base"
        sysTriv).registry "pkgB/Bar" = none ∧
    (isClassAvailable (refreshDeclaredClasses
        [⟨"pkgA/Foo", "FooImpl", "Base", "", "pkgA", "foo", "/m.xml"⟩] "Base"
        sysTriv).registry "pkgB/Bar" = false ∧
      getClassDescription (refreshDeclaredClasses
        [⟨"pkgA/Foo", "FooImpl", "Base", "", "pkgA", "foo", "/m.xml"⟩] "Base"
        sysTriv).registry "pkgB/Bar" =
        Except.error (PluginlibError.unknownClassError
          (getErrorStringForUnknownClass (refreshDeclaredClasses
            [⟨"pkgA/Foo", "FooImpl", "Base", "", "pkgA", "foo", "/m.xml"⟩] "Base"
            sysTriv).registry "pkgB/Bar"))) :=
  ⟨rfl,
    refresh_absent_class
      [⟨"pkgA/Foo", "FooImpl", "Base", "", "pkgA", "foo", "/m.xml"⟩] "Base"
      "pkgB/Bar" sysTriv rfl⟩

/-! ### C8: the unknown-class diagnostic names the query and all knowns -/

theorem mem_joinNames (m : String) :
    ∀ names : List String, m ∈ names →
      m.data <:+: (joinNames names).data := by
  intro names
  induction names with
  | nil => intro h; simp at h
  | cons x xs ih =>
      intro h
      rcases List.mem_cons.mp h with rfl | hmem
      · refine ⟨[], (" " ++ joinNames xs).data, ?_⟩
        simp [joinNames, String.data_append, List.append_assoc]
      · refine (ih hmem).trans ⟨(x ++ " ").data, [], ?_⟩
        simp [joinNames, String.data_append, List.append_assoc]

/-- C8: for a qualified name not in the registry, describe fails with
`UnknownClassError` and the error message contains the queried name and every
currently known qualified name as substrings. -/
theorem unknown_class_message (reg : List ClassDesc) (n : String)
    (h : lookupDesc reg n = none) :
    getClassDescription reg n = Except.error (PluginlibError.unknownClassError
      (getErrorStringForUnknownClass reg n)) ∧
    n.data <:+: (getErrorStringForUnknownClass reg n).data ∧
    ∀ m ∈ getDeclaredClasses reg,
      m.data <:+: (getErrorStringForUnknownClass reg n).data := by
  refine ⟨by simp [getClassDescription, h], ?_, ?_⟩
  · refine ⟨"According to the loaded plugin descriptions the class ".data,
      (" does not exist. Declared types are " ++
        joinNames (getDeclaredClasses reg)).data, ?_⟩
    simp [getErrorStringForUnknownClass, String.data_append, List.append_assoc]
  · intro m hm
    refine (mem_joinNames m (getDeclaredClasses reg) hm).trans
      ⟨("According to the loaded plugin descriptions the class " ++ n ++
        " does not exist. Declared types are ").data, [], ?_⟩
    simp [getErrorStringForUnknownClass, String.data_append, List.append_assoc]

/-- Witness for C8: querying "pkgB/Bar" against a registry knowing only
"pkgA/Foo" produces the diagnostic containing both names. -/
theorem unknown_class_message_witness :
    lookupDesc [⟨"pkgA/Foo", "FooImpl", "Base", "", "pkgA", "foo", "/m.xml"⟩]
      "pkgB/Bar" = none ∧
    ("pkgB/Bar".data <:+:
      (getErrorStringForUnknownClass
        [⟨"pkgA/Foo", "FooImpl", "Base", "", "pkgA", "foo", "/m.xml"⟩]
        "pkgB/Bar").data ∧
    ∀ m ∈ getDeclaredClasses
        [⟨"pkgA/Foo", "FooImpl", "Base", "", "pkgA", "foo", "/m.xml"⟩],
      m.data <:+:
        (getErrorStringForUnknownClass
          [⟨"pkgA/Foo", "FooImpl", "Base", "", "pkgA", "foo", "/m.xml"⟩]
          "pkgB/Bar").data) :=
  ⟨rfl,
    (unknown_class_message
      [⟨"pkgA/Foo", "FooImpl", "Base", "", "pkgA", "foo", "/m.xml"⟩]
      "pkgB/Bar" rfl).2⟩

end Pluginlib
